import Mathlib

/-!
Verification of the Evocode tutoring backend's domain logic: a shallow
embedding of the topic-progression resolver (`agents/student_model.py`),
the quiz grader (`agents/grader.py`) and the onboarding resolver
(`main.py`), together with proofs of the specified properties.

Python dictionaries preserve insertion order, so dict-shaped data is
embedded as ordered association lists; Python sets are embedded as lists
with membership-based operations (the source only ever tests membership,
subset and emptiness on them, except one arbitrary-choice selection which
is noted at its definition).  External effects (Firestore, the Judge0
execution service, the LLM solution validator) are embedded as explicit
state passing and oracle parameters.
-/

/-- Details of one topic in `KnowledgeGraph.json`: its id and its
prerequisite topic ids (the `concepts` field is never read by the code
under verification and is omitted). -/
structure TopicDetails where
  id : String
  prerequisites : List String
  deriving Repr, DecidableEq

/-- One category of the knowledge graph: an ordered association list from
topic title to topic details, mirroring a Python dict's insertion order. -/
abbrev Category := List (String × TopicDetails)

/-- The knowledge graph `{category: {topicTitle: {id, prerequisites[]}}}`,
an ordered association list of categories. -/
abbrev KnowledgeGraph := List (String × Category)

/-- `models.KnowledgeState`: claimed, verified and struggling topic-id
lists. -/
structure KnowledgeState where
  claimed_mastery : List String
  verified_mastery : List String
  struggling_with : List String
  deriving Repr, DecidableEq

/-- `models.LearningProfile`: preference tags. -/
structure LearningProfile where
  tags : List String
  deriving Repr, DecidableEq

/-- `models.UserProfile`. -/
structure UserProfile where
  userId : String
  userName : String
  goal : String
  learningProfile : LearningProfile
  knowledgeState : KnowledgeState
  onboarding_complete : Bool
  deriving Repr, DecidableEq

/-- The `{"title": ..., "id": ...}` dictionary returned by the topic
selectors. -/
structure TopicRef where
  title : String
  id : String
  deriving Repr, DecidableEq

/-- Inner loop of `get_next_topic`: scan one category's topics in order;
skip a topic whose id is already verified; return the first remaining
topic all of whose prerequisites are verified. -/
def nextTopicInCategory (verified_ids : List String) : Category → Option TopicRef
  | [] => none
  | (topic_title, topic_details) :: rest =>
    if topic_details.id ∈ verified_ids then
      nextTopicInCategory verified_ids rest
    else if topic_details.prerequisites.all (fun p => p ∈ verified_ids) then
      some { title := topic_title, id := topic_details.id }
    else
      nextTopicInCategory verified_ids rest

/-- Outer loop of `get_next_topic`: scan categories in order. -/
def nextTopicInGraph (verified_ids : List String) : KnowledgeGraph → Option TopicRef
  | [] => none
  | (_, category) :: rest =>
    match nextTopicInCategory verified_ids category with
    | some t => some t
    | none => nextTopicInGraph verified_ids rest

/-- `student_model.get_next_topic`: determine the next topic to learn from
the user's verified mastery; `none` signals that all topics are done. -/
def get_next_topic (graph : KnowledgeGraph) (user_profile : UserProfile) : Option TopicRef :=
  nextTopicInGraph user_profile.knowledgeState.verified_mastery graph

/-- The graph's natural enumeration order: categories in order, topics in
order within each category (used to state the first-match property). -/
def flattenTopics (graph : KnowledgeGraph) : List (String × TopicDetails) :=
  graph.flatMap (fun c => c.2)

/-- A topic qualifies for selection when its id is not yet verified and
every prerequisite id is verified. -/
def eligibleTopic (verified_ids : List String) (p : String × TopicDetails) : Bool :=
  decide (p.2.id ∉ verified_ids) && p.2.prerequisites.all (fun q => q ∈ verified_ids)

/-- Graph-lookup loop shared with `get_next_claimed_topic`: find the title
of the first topic in the graph carrying the given id. -/
def lookupTopicTitle (graph : KnowledgeGraph) (topic_id : String) : Option TopicRef :=
  match (flattenTopics graph).find? (fun p => p.2.id == topic_id) with
  | some (topic_title, _) => some { title := topic_title, id := topic_id }
  | none => none

/-- `student_model.get_next_claimed_topic`: the next claimed topic still
needing verification, `none` when all claimed topics have been processed.
The source draws an arbitrary element from the Python set
`claimed - verified - struggling` via `next(iter(...))`; the embedding
fixes the first such id in `claimed_mastery` order (the spec leaves the
selection among ties arbitrary, and no claim depends on the choice). -/
def get_next_claimed_topic (graph : KnowledgeGraph) (user_profile : UserProfile) : Option TopicRef :=
  let ks := user_profile.knowledgeState
  let unprocessed_claimed := ks.claimed_mastery.filter
    (fun t => decide (t ∉ ks.verified_mastery) && decide (t ∉ ks.struggling_with))
  match unprocessed_claimed with
  | [] => none
  | next_topic_id :: _ => lookupTopicTitle graph next_topic_id

section TopicSelection

/-- Soundness of the inner loop: a returned topic comes from the scanned
category, is unverified, and has all prerequisites verified. -/
theorem nextTopicInCategory_sound (M : List String) (cat : Category) (t : TopicRef)
    (hcat : nextTopicInCategory M cat = some t) :
    ∃ p ∈ cat, p.1 = t.title ∧ p.2.id = t.id ∧
      t.id ∉ M ∧ ∀ q ∈ p.2.prerequisites, q ∈ M := by
  induction cat with
  | nil => simp [nextTopicInCategory] at hcat
  | cons p ps ihp =>
    rw [nextTopicInCategory] at hcat
    by_cases hid : p.2.id ∈ M
    · simp only [hid, if_pos] at hcat
      obtain ⟨q, hq, hrest⟩ := ihp hcat
      exact ⟨q, List.mem_cons_of_mem _ hq, hrest⟩
    · simp only [hid, if_neg, if_false] at hcat
      by_cases hpre : p.2.prerequisites.all (fun q => q ∈ M)
      · simp only [hpre, if_pos] at hcat
        cases hcat
        refine ⟨p, List.mem_cons_self _ _, rfl, rfl, hid, ?_⟩
        intro q hq
        have := List.all_eq_true.mp hpre q hq
        simpa using this
      · simp only [hpre, if_neg, if_false] at hcat
        obtain ⟨q, hq, hrest⟩ := ihp hcat
        exact ⟨q, List.mem_cons_of_mem _ hq, hrest⟩

/-- C1: `get_next_topic` only returns a topic that occurs in the graph,
whose id is not in the verified (mastered) set and whose prerequisites are
all in the verified set. -/
theorem C1_next_topic_sound (graph : KnowledgeGraph) (user_profile : UserProfile)
    (t : TopicRef) (h : get_next_topic graph user_profile = some t) :
    ∃ c ∈ graph, ∃ p ∈ c.2,
      p.1 = t.title ∧ p.2.id = t.id ∧
      t.id ∉ user_profile.knowledgeState.verified_mastery ∧
      ∀ q ∈ p.2.prerequisites, q ∈ user_profile.knowledgeState.verified_mastery := by
  unfold get_next_topic at h
  set M := user_profile.knowledgeState.verified_mastery with hM
  clear_value M
  induction graph with
  | nil => simp [nextTopicInGraph] at h
  | cons c rest ih =>
    rw [nextTopicInGraph] at h
    cases hcat : nextTopicInCategory M c.2 with
    | some t' =>
      rw [hcat] at h
      cases h
      obtain ⟨p, hp, hrest⟩ := nextTopicInCategory_sound M c.2 t hcat
      exact ⟨c, List.mem_cons_self _ _, p, hp, hrest⟩
    | none =>
      rw [hcat] at h
      obtain ⟨c', hc', rest'⟩ := ih h
      exact ⟨c', List.mem_cons_of_mem _ hc', rest'⟩

/-- The toy graph of the spec's progression example: one category holding
topic A with no prerequisites and topic B with prerequisite A. -/
def exampleGraph : KnowledgeGraph :=
  [("basics", [("A", { id := "A", prerequisites := [] }),
               ("B", { id := "B", prerequisites := ["A"] })])]

/-- A user profile over the example graph with the given verified ids. -/
def exampleUser (verified : List String) : UserProfile :=
  { userId := "u1", userName := "Alex", goal := "Python",
    learningProfile := { tags := [] },
    knowledgeState :=
      { claimed_mastery := [], verified_mastery := verified, struggling_with := [] },
    onboarding_complete := false }

/-- Witness for C1: on the example graph with nothing verified, the
selector returns topic A, and the soundness theorem applies to it. -/
theorem C1_next_topic_sound_witness :
    get_next_topic exampleGraph (exampleUser []) = some { title := "A", id := "A" } ∧
    ∃ c ∈ exampleGraph, ∃ p ∈ c.2,
      p.1 = "A" ∧ p.2.id = "A" ∧
      "A" ∉ (exampleUser []).knowledgeState.verified_mastery ∧
      ∀ q ∈ p.2.prerequisites, q ∈ (exampleUser []).knowledgeState.verified_mastery := by
  refine ⟨by decide, ?_⟩
  have h := C1_next_topic_sound exampleGraph (exampleUser [])
    { title := "A", id := "A" } (by decide)
  simpa using h

/-- The inner loop returns the first eligible topic of the category. -/
theorem nextTopicInCategory_eq_find (M : List String) (cat : Category) :
    nextTopicInCategory M cat =
      (cat.find? (eligibleTopic M)).map (fun p => { title := p.1, id := p.2.id }) := by
  induction cat with
  | nil => simp [nextTopicInCategory]
  | cons p ps ihp =>
    rw [nextTopicInCategory, List.find?]
    by_cases hid : p.2.id ∈ M
    · have he : eligibleTopic M p = false := by
        simp [eligibleTopic, hid]
      simp [hid, he, ihp]
    · by_cases hpre : p.2.prerequisites.all (fun q => q ∈ M)
      · have he : eligibleTopic M p = true := by
          simp [eligibleTopic, hid, hpre]
        simp [hid, hpre, he]
      · have he : eligibleTopic M p = false := by
          simp only [eligibleTopic, Bool.and_eq_false_iff]
          right
          exact Bool.eq_false_iff.mpr hpre
        simp [hid, hpre, he, ihp]

/-- The whole traversal returns the first eligible topic in the graph's
natural enumeration order. -/
theorem nextTopicInGraph_eq_find (M : List String) (graph : KnowledgeGraph) :
    nextTopicInGraph M graph =
      ((flattenTopics graph).find? (eligibleTopic M)).map
        (fun p => { title := p.1, id := p.2.id }) := by
  induction graph with
  | nil => simp [nextTopicInGraph, flattenTopics]
  | cons c rest ih =>
    rw [nextTopicInGraph, nextTopicInCategory_eq_find]
    have hflat : flattenTopics (c :: rest) = c.2 ++ flattenTopics rest := by
      simp [flattenTopics]
    rw [hflat, List.find?_append]
    cases hf : c.2.find? (eligibleTopic M) with
    | some p => simp [hf]
    | none => simp [hf, ih]

/-- C2: `get_next_topic` returns the first topic in the graph's natural
enumeration order that is not verified and has all prerequisites verified;
when no topic qualifies — in particular when every topic id in the graph
is verified — it returns `none`; and on the graph A:[], B:[A] the verified
sets {}, {A}, {A,B} yield A, B and `none` respectively. -/
theorem C2_next_topic_first_match :
    (∀ (graph : KnowledgeGraph) (user_profile : UserProfile),
      get_next_topic graph user_profile =
        ((flattenTopics graph).find?
          (eligibleTopic user_profile.knowledgeState.verified_mastery)).map
          (fun p => { title := p.1, id := p.2.id })) ∧
    (∀ (graph : KnowledgeGraph) (user_profile : UserProfile),
      (∀ p ∈ flattenTopics graph,
          p.2.id ∈ user_profile.knowledgeState.verified_mastery) →
      get_next_topic graph user_profile = none) ∧
    (get_next_topic exampleGraph (exampleUser []) = some { title := "A", id := "A" } ∧
     get_next_topic exampleGraph (exampleUser ["A"]) = some { title := "B", id := "B" } ∧
     get_next_topic exampleGraph (exampleUser ["A", "B"]) = none) := by
  refine ⟨?_, ?_, by decide, by decide, by decide⟩
  · intro graph user_profile
    exact nextTopicInGraph_eq_find _ graph
  · intro graph user_profile hall
    rw [get_next_topic, nextTopicInGraph_eq_find]
    have : (flattenTopics graph).find?
        (eligibleTopic user_profile.knowledgeState.verified_mastery) = none := by
      rw [List.find?_eq_none]
      intro p hp
      simp [eligibleTopic, hall p hp]
    simp [this]

/-- Witness for C2: the completion clause applied to the example graph
with both topics verified. -/
theorem C2_next_topic_first_match_witness :
    get_next_topic exampleGraph (exampleUser ["A", "B"]) = none := by
  exact C2_next_topic_first_match.2.1 exampleGraph (exampleUser ["A", "B"]) (by decide)

/-- C5: when every claimed topic is already verified or marked struggling
(so the set difference claimed − (verified ∪ struggling) is empty),
`get_next_claimed_topic` returns `none`. -/
theorem C5_next_claimed_none_when_processed (graph : KnowledgeGraph)
    (user_profile : UserProfile)
    (h : ∀ t ∈ user_profile.knowledgeState.claimed_mastery,
      t ∈ user_profile.knowledgeState.verified_mastery ∨
      t ∈ user_profile.knowledgeState.struggling_with) :
    get_next_claimed_topic graph user_profile = none := by
  rw [get_next_claimed_topic]
  have hnil : user_profile.knowledgeState.claimed_mastery.filter
      (fun t => decide (t ∉ user_profile.knowledgeState.verified_mastery) &&
        decide (t ∉ user_profile.knowledgeState.struggling_with)) = [] := by
    rw [List.filter_eq_nil_iff]
    intro t ht
    rcases h t ht with hv | hs
    · simp [hv]
    · simp [hs]
  simp only [decide_not] at hnil
  simp [hnil]

/-- A profile for the C5 witness: topic A claimed and already verified. -/
def processedUser : UserProfile :=
  { userId := "u2", userName := "Alex", goal := "Python",
    learningProfile := { tags := [] },
    knowledgeState :=
      { claimed_mastery := ["A"], verified_mastery := ["A"], struggling_with := [] },
    onboarding_complete := false }

/-- Witness for C5: with claimed = verified = A, nothing is left to
verify. -/
theorem C5_next_claimed_none_when_processed_witness :
    get_next_claimed_topic exampleGraph processedUser = none := by
  exact C5_next_claimed_none_when_processed exampleGraph processedUser (by decide)

end TopicSelection

/-! ### Mastery state updates (`student_model.py` Firestore writes)

The Firestore document for a user is read-modify-written by the update
functions; the embedding passes the document state explicitly.
`firestore.ArrayUnion([x])` appends `x` when absent, and
`firestore.ArrayRemove([x])` deletes every occurrence of `x`. -/

/-- Firestore `ArrayUnion` with a single element. -/
def arrayUnion (l : List String) (x : String) : List String :=
  if x ∈ l then l else l ++ [x]

/-- Firestore `ArrayRemove` with a single element. -/
def arrayRemove (l : List String) (x : String) : List String :=
  l.filter (fun y => y ≠ x)

/-- The slice of the user document touched by the update functions. -/
structure UserDoc where
  knowledgeState : KnowledgeState
  onboarding_complete : Bool
  deriving Repr, DecidableEq

/-- `student_model.update_mastery_verification`: on a pass the topic joins
`verified_mastery`, on a fail it joins `struggling_with`; then the
document is re-read and `onboarding_complete` is set to `true` when
verified and struggling together cover the claimed count. -/
def update_mastery_verification (doc : UserDoc) (topic_id : String)
    (quiz_passed : Bool) : UserDoc :=
  let ks := doc.knowledgeState
  let ks' :=
    if quiz_passed then
      { ks with verified_mastery := arrayUnion ks.verified_mastery topic_id }
    else
      { ks with struggling_with := arrayUnion ks.struggling_with topic_id }
  let doc' : UserDoc := { doc with knowledgeState := ks' }
  if ks'.verified_mastery.length + ks'.struggling_with.length ≥
      ks'.claimed_mastery.length then
    { doc' with onboarding_complete := true }
  else
    doc'

/-- `student_model.update_knowledge_state_mixed`: on a post-lesson pass
the topic joins `verified_mastery` and leaves `struggling_with`; on a
fail it joins `struggling_with`. -/
def update_knowledge_state_mixed (doc : UserDoc) (topic_id : String)
    (quiz_passed : Bool) : UserDoc :=
  let ks := doc.knowledgeState
  if quiz_passed then
    { doc with knowledgeState :=
        { ks with verified_mastery := arrayUnion ks.verified_mastery topic_id,
                  struggling_with := arrayRemove ks.struggling_with topic_id } }
  else
    { doc with knowledgeState :=
        { ks with struggling_with := arrayUnion ks.struggling_with topic_id } }

theorem mem_arrayUnion_self (l : List String) (x : String) : x ∈ arrayUnion l x := by
  rw [arrayUnion]
  by_cases h : x ∈ l
  · simp [h]
  · simp [h]

theorem not_mem_arrayRemove_self (l : List String) (x : String) :
    x ∉ arrayRemove l x := by
  rw [arrayRemove]
  intro h
  have := List.of_mem_filter h
  simp at this

/-- C6: a mastery-verification pass adds the topic to `verified_mastery`,
a fail adds it to `struggling_with`; afterwards `onboarding_complete` is
`true` exactly when the verification was already complete before or
verified and struggling together now cover the claimed count. -/
theorem C6_update_mastery_verification (doc : UserDoc) (topic_id : String)
    (quiz_passed : Bool) :
    (quiz_passed = true →
      topic_id ∈ (update_mastery_verification doc topic_id quiz_passed).knowledgeState.verified_mastery) ∧
    (quiz_passed = false →
      topic_id ∈ (update_mastery_verification doc topic_id quiz_passed).knowledgeState.struggling_with) ∧
    ((update_mastery_verification doc topic_id quiz_passed).onboarding_complete = true ↔
      (doc.onboarding_complete = true ∨
        (update_mastery_verification doc topic_id quiz_passed).knowledgeState.verified_mastery.length +
          (update_mastery_verification doc topic_id quiz_passed).knowledgeState.struggling_with.length ≥
          (update_mastery_verification doc topic_id quiz_passed).knowledgeState.claimed_mastery.length)) := by
  cases quiz_passed with
  | true =>
    refine ⟨fun _ => ?_, fun h => by simp at h, ?_⟩
    · rw [update_mastery_verification]
      by_cases hc : (arrayUnion doc.knowledgeState.verified_mastery topic_id).length +
          doc.knowledgeState.struggling_with.length ≥
          doc.knowledgeState.claimed_mastery.length
      · simpa [hc] using mem_arrayUnion_self _ _
      · simpa [hc] using mem_arrayUnion_self _ _
    · rw [update_mastery_verification]
      by_cases hc : (arrayUnion doc.knowledgeState.verified_mastery topic_id).length +
          doc.knowledgeState.struggling_with.length ≥
          doc.knowledgeState.claimed_mastery.length
      · simp [hc]
      · simp [hc]
  | false =>
    refine ⟨fun h => by simp at h, fun _ => ?_, ?_⟩
    · rw [update_mastery_verification]
      by_cases hc : doc.knowledgeState.verified_mastery.length +
          (arrayUnion doc.knowledgeState.struggling_with topic_id).length ≥
          doc.knowledgeState.claimed_mastery.length
      · simpa [hc] using mem_arrayUnion_self _ _
      · simpa [hc] using mem_arrayUnion_self _ _
    · rw [update_mastery_verification]
      by_cases hc : doc.knowledgeState.verified_mastery.length +
          (arrayUnion doc.knowledgeState.struggling_with topic_id).length ≥
          doc.knowledgeState.claimed_mastery.length
      · simp [hc]
      · simp [hc]

/-- Witness for C6: a pass on topic A for a fresh one-claim document
verifies A and completes onboarding. -/
theorem C6_update_mastery_verification_witness :
    true = true ∧
    "A" ∈ (update_mastery_verification
      { knowledgeState :=
          { claimed_mastery := ["A"], verified_mastery := [], struggling_with := [] },
        onboarding_complete := false } "A" true).knowledgeState.verified_mastery :=
  ⟨rfl, (C6_update_mastery_verification
      { knowledgeState :=
          { claimed_mastery := ["A"], verified_mastery := [], struggling_with := [] },
        onboarding_complete := false } "A" true).1 rfl⟩

/-! ### Quiz models and the grader (`models.py`, `agents/grader.py`)

The grader's two external effects — the Judge0 code-execution service and
the LLM solution validator — are passed in as oracle parameters
(`execute_code`, `validate_coding_solution`); everything else is the
source's control flow. -/

/-- `models.MCQQuestion`. -/
structure MCQQuestion where
  question : String
  options : List String
  correct_answer : Int
  deriving Repr, DecidableEq

/-- `models.CodingQuestion`. -/
structure CodingQuestion where
  question : String
  expected_output : String
  validation_criteria : List String
  sample_solution : String
  deriving Repr, DecidableEq

/-- `models.MixedQuiz`. -/
structure MixedQuiz where
  topic_id : String
  topic_title : String
  mcq_questions : List MCQQuestion
  coding_question : CodingQuestion
  quiz_type : String
  deriving Repr, DecidableEq

/-- `models.MixedQuizSubmission`. -/
structure MixedQuizSubmission where
  topic_id : String
  mcq_answers : List Int
  coding_answer : String
  quiz_type : String
  deriving Repr, DecidableEq

/-- `models.QuizResult`. -/
structure QuizResult where
  topic_id : String
  mcq_score : Nat
  mcq_passed : Bool
  coding_passed : Bool
  overall_passed : Bool
  coding_feedback : String
  message : String
  deriving Repr, DecidableEq

/-- The loop of `grade_mcq_questions` over `zip(user_answers,
mcq_questions)`: per-position correctness flags and the number of correct
answers. -/
def gradeMcqLoop : List Int → List MCQQuestion → Nat × List Bool
  | user_answer :: answers, question :: questions =>
    let is_correct : Bool := user_answer == question.correct_answer
    let rest := gradeMcqLoop answers questions
    ((if is_correct then 1 else 0) + rest.1, is_correct :: rest.2)
  | _, _ => (0, [])

/-- `grader.grade_mcq_questions`: guard against a count mismatch, then
count positions where the submitted index equals the stored
`correct_answer`. -/
def grade_mcq_questions (user_answers : List Int)
    (mcq_questions : List MCQQuestion) : Nat × List Bool :=
  if user_answers.length ≠ mcq_questions.length then
    (0, List.replicate mcq_questions.length false)
  else
    gradeMcqLoop user_answers mcq_questions

/-- `grader.grade_coding_question`: layer 1 executes the student's code;
on failure the question fails with the execution status and error output
in the feedback; only on success is layer 2, the AI validator, consulted.
The validator oracle takes question text, student code, expected output,
actual output and the validation criteria. -/
def grade_coding_question (execute_code : String → Bool × String × String)
    (validate_coding_solution :
      String → String → String → String → List String → Bool × String)
    (student_code : String) (coding_question : CodingQuestion) : Bool × String :=
  let r := execute_code student_code
  let execution_success := r.1
  let status := r.2.1
  let actual_output := r.2.2
  if !execution_success then
    (false, "Code execution failed: " ++ status ++ ". Error: " ++ actual_output)
  else
    let v := validate_coding_solution coding_question.question student_code
      coding_question.expected_output actual_output coding_question.validation_criteria
    if v.1 then
      (v.1, "✅ Correct! " ++ v.2)
    else
      (v.1, "❌ Incorrect. " ++ v.2)

/-- One JSON response of the Judge0 polling GET, or a raised
`RequestException`; a missing `id` or `description` is modelled by the
defaults `0` and `Unknown` that `.get` supplies in the source. -/
inductive PollResponse where
  | reqError (msg : String)
  | response (status_id : Nat) (status_description : String) (stdout : String)
      (stderr : Option String) (compile_output : Option String)
  deriving Repr, DecidableEq

/-- The response of the Judge0 submission POST: a raised
`RequestException`, or a JSON body with an optional `token`. -/
inductive SubmitResponse where
  | reqError (msg : String)
  | ok (token : Option String)
  deriving Repr, DecidableEq

/-- Python's `a or b` over optional strings: `None` and the empty string
both fall through to `b`. -/
def pyStrOr (a : Option String) (b : String) : String :=
  match a with
  | some s => if s = "" then b else s
  | none => b

/-- The `for _ in range(10)` polling loop of
`execute_code_and_get_output`: `i` is the index of the next poll, `fuel`
the number of iterations left.  A status id above 2 means the job
finished; id 3 ("Accepted") is success, anything else surfaces
stderr, else compile output, else a fixed message. -/
def pollForResult (polls : Nat → PollResponse) : Nat → Nat → Bool × String × String
  | _, 0 => (false, "Execution timed out.", "")
  | i, fuel + 1 =>
    match polls i with
    | .reqError e => (false, "API polling failed: " ++ e, "")
    | .response status_id status_description stdout stderr compile_output =>
      if status_id > 2 then
        if status_id == 3 then
          (true, status_description, stdout.trim)
        else
          (false, status_description,
            pyStrOr stderr (pyStrOr compile_output "Execution failed"))
      else
        pollForResult polls (i + 1) fuel

/-- `grader.execute_code_and_get_output`, with the network modelled by the
submission response and the stream of poll responses. -/
def execute_code_and_get_output (submit : SubmitResponse)
    (polls : Nat → PollResponse) : Bool × String × String :=
  match submit with
  | .reqError e => (false, "API request failed: " ++ e, "")
  | .ok none => (false, "Failed to get submission token.", "")
  | .ok (some _) => pollForResult polls 0 10

/-- A poll response that reports the job as still running (status id at
most 2), so the loop keeps polling. -/
def pollStillRunning : PollResponse → Bool
  | .response status_id _ _ _ _ => status_id ≤ 2
  | .reqError _ => false

/-- Python dict assignment `d[key] = v` on an ordered association list:
replace in place when the key exists, append otherwise. -/
def dictSet (d : List (String × MixedQuiz)) (key : String) (quiz : MixedQuiz) :
    List (String × MixedQuiz) :=
  if d.any (fun p => p.1 == key) then
    d.map (fun p => if p.1 == key then (key, quiz) else p)
  else
    d ++ [(key, quiz)]

/-- `grader.store_quiz_for_grading`: store under the key
`user_id:topic_id:quiz_type` in the `active_quizzes` dict. -/
def store_quiz_for_grading (active_quizzes : List (String × MixedQuiz))
    (quiz : MixedQuiz) (user_id : String) : List (String × MixedQuiz) :=
  dictSet active_quizzes (user_id ++ ":" ++ quiz.topic_id ++ ":" ++ quiz.quiz_type) quiz

/-- The retrieval loop of `grade_mixed_quiz`: the first stored quiz whose
own `topic_id` and `quiz_type` fields match the submission, the storage
key being ignored. -/
def find_stored_quiz (active_quizzes : List (String × MixedQuiz))
    (topic_id quiz_type : String) : Option MixedQuiz :=
  match active_quizzes.find?
      (fun p => p.2.topic_id == topic_id && p.2.quiz_type == quiz_type) with
  | some p => some p.2
  | none => none

/-- The MCQ pass threshold of `grade_mixed_quiz`: at least 2 of 3. -/
def mcqPassedOf (mcq_score : Nat) : Bool := 2 ≤ mcq_score

/-- `grader.grade_mixed_quiz`: retrieve the stored quiz by topic and type,
grade the MCQs and the coding question, and combine. -/
def grade_mixed_quiz (active_quizzes : List (String × MixedQuiz))
    (execute_code : String → Bool × String × String)
    (validate_coding_solution :
      String → String → String → String → List String → Bool × String)
    (submission : MixedQuizSubmission) : QuizResult :=
  match find_stored_quiz active_quizzes submission.topic_id submission.quiz_type with
  | none =>
    { topic_id := submission.topic_id, mcq_score := 0, mcq_passed := false,
      coding_passed := false, overall_passed := false,
      coding_feedback := "Error: Quiz not found for grading",
      message := "Grading failed - quiz not found" }
  | some stored_quiz =>
    let g := grade_mcq_questions submission.mcq_answers stored_quiz.mcq_questions
    let mcq_score := g.1
    let mcq_passed := mcqPassedOf mcq_score
    let c := grade_coding_question execute_code validate_coding_solution
      submission.coding_answer stored_quiz.coding_question
    let coding_passed := c.1
    let overall_passed := mcq_passed && coding_passed
    let mcq_emoji := if mcq_passed then "✅" else "❌"
    let coding_emoji := if coding_passed then "✅" else "❌"
    { topic_id := submission.topic_id, mcq_score := mcq_score,
      mcq_passed := mcq_passed, coding_passed := coding_passed,
      overall_passed := overall_passed, coding_feedback := c.2,
      message := "MCQ: " ++ toString mcq_score ++ "/3 " ++ mcq_emoji ++
        ", Coding: " ++ coding_emoji }

/-- C7: a post-lesson quiz pass adds the topic to `verified_mastery` and
removes it from `struggling_with`; a fail adds it to `struggling_with`
and leaves `verified_mastery` unchanged. -/
theorem C7_update_knowledge_state_mixed (doc : UserDoc) (topic_id : String)
    (quiz_passed : Bool) :
    (quiz_passed = true →
      topic_id ∈ (update_knowledge_state_mixed doc topic_id quiz_passed).knowledgeState.verified_mastery ∧
      topic_id ∉ (update_knowledge_state_mixed doc topic_id quiz_passed).knowledgeState.struggling_with) ∧
    (quiz_passed = false →
      topic_id ∈ (update_knowledge_state_mixed doc topic_id quiz_passed).knowledgeState.struggling_with ∧
      (update_knowledge_state_mixed doc topic_id quiz_passed).knowledgeState.verified_mastery =
        doc.knowledgeState.verified_mastery) := by
  cases quiz_passed with
  | true =>
    refine ⟨fun _ => ⟨?_, ?_⟩, fun h => by simp at h⟩
    · simpa [update_knowledge_state_mixed] using mem_arrayUnion_self _ _
    · simpa [update_knowledge_state_mixed] using not_mem_arrayRemove_self
        doc.knowledgeState.struggling_with topic_id
  | false =>
    refine ⟨fun h => by simp at h, fun _ => ⟨?_, ?_⟩⟩
    · simpa [update_knowledge_state_mixed] using mem_arrayUnion_self _ _
    · simp [update_knowledge_state_mixed]

/-- Witness for C7: a failed post-lesson quiz on topic B adds B to the
struggling list of an empty document. -/
theorem C7_update_knowledge_state_mixed_witness :
    false = false ∧
    "B" ∈ (update_knowledge_state_mixed
      { knowledgeState :=
          { claimed_mastery := [], verified_mastery := [], struggling_with := [] },
        onboarding_complete := true } "B" false).knowledgeState.struggling_with :=
  ⟨rfl, ((C7_update_knowledge_state_mixed
      { knowledgeState :=
          { claimed_mastery := [], verified_mastery := [], struggling_with := [] },
        onboarding_complete := true } "B" false).2 rfl).1⟩

/-! ### Grading theorems -/

/-- The MCQ grading loop's score is the number of zip positions where the
submitted index equals the stored correct index. -/
theorem gradeMcqLoop_score (user_answers : List Int) (mcq_questions : List MCQQuestion) :
    (gradeMcqLoop user_answers mcq_questions).1 =
      (user_answers.zip mcq_questions).countP
        (fun p => p.1 == p.2.correct_answer) := by
  induction user_answers generalizing mcq_questions with
  | nil => cases mcq_questions <;> simp [gradeMcqLoop]
  | cons a as ih =>
    cases mcq_questions with
    | nil => simp [gradeMcqLoop]
    | cons q qs =>
      rw [gradeMcqLoop]
      simp only [List.zip_cons_cons, List.countP_cons, ih]
      by_cases h : (a == q.correct_answer) = true
      · simp [h, Nat.add_comm]
      · simp [h]

/-- C3: grading 3 submitted MCQ answers against 3 stored questions scores
the number of positions where the submitted index equals the stored
`correct_answer`, and the MCQ pass flag holds exactly when that score is
at least 2. -/
theorem C3_mcq_score_and_threshold (user_answers : List Int)
    (mcq_questions : List MCQQuestion)
    (ha : user_answers.length = 3) (hq : mcq_questions.length = 3) :
    (grade_mcq_questions user_answers mcq_questions).1 =
      (user_answers.zip mcq_questions).countP
        (fun p => p.1 == p.2.correct_answer) ∧
    (mcqPassedOf (grade_mcq_questions user_answers mcq_questions).1 = true ↔
      2 ≤ (grade_mcq_questions user_answers mcq_questions).1) := by
  have hguard : ¬ user_answers.length ≠ mcq_questions.length := by omega
  constructor
  · rw [grade_mcq_questions, if_neg hguard]
    exact gradeMcqLoop_score _ _
  · simp [mcqPassedOf]

/-- The stored MCQs of the spec's grading example, with correct answers
0, 1, 0. -/
def exampleMcqs : List MCQQuestion :=
  [{ question := "q1", options := ["a", "b", "c", "d"], correct_answer := 0 },
   { question := "q2", options := ["a", "b", "c", "d"], correct_answer := 1 },
   { question := "q3", options := ["a", "b", "c", "d"], correct_answer := 0 }]

/-- Witness for C3: submitted answers 0, 1, 2 against stored correct
answers 0, 1, 0 score 2 and pass the threshold. -/
theorem C3_mcq_score_and_threshold_witness :
    (grade_mcq_questions [0, 1, 2] exampleMcqs).1 = 2 ∧
    mcqPassedOf (grade_mcq_questions [0, 1, 2] exampleMcqs).1 = true := by
  have h := C3_mcq_score_and_threshold [0, 1, 2] exampleMcqs (by decide) (by decide)
  have hs : (grade_mcq_questions [0, 1, 2] exampleMcqs).1 = 2 := by decide
  exact ⟨hs, h.2.mpr (by rw [hs])⟩

/-- C4: when code execution reports a non-success outcome, the coding
question fails with feedback built from the execution status and error
output, and the result does not depend on the AI validator at all (it is
never invoked on that path). -/
theorem C4_exec_failure_skips_validator
    (execute_code : String → Bool × String × String)
    (validate_coding_solution :
      String → String → String → String → List String → Bool × String)
    (student_code : String) (coding_question : CodingQuestion)
    (h : (execute_code student_code).1 = false) :
    grade_coding_question execute_code validate_coding_solution
        student_code coding_question =
      (false, "Code execution failed: " ++ (execute_code student_code).2.1 ++
        ". Error: " ++ (execute_code student_code).2.2) ∧
    ∀ other_validator,
      grade_coding_question execute_code other_validator
          student_code coding_question =
        grade_coding_question execute_code validate_coding_solution
          student_code coding_question := by
  constructor
  · rw [grade_coding_question]
    simp [h]
  · intro other_validator
    rw [grade_coding_question, grade_coding_question]
    simp [h]

/-- A Judge0 outcome for a program that crashes at runtime. -/
def failingExec : String → Bool × String × String :=
  fun _ => (false, "Runtime Error (NZEC)", "Traceback (most recent call last)")

/-- An AI validator oracle that accepts everything (its answer must be
irrelevant on the failure path). -/
def acceptAllValidator :
    String → String → String → String → List String → Bool × String :=
  fun _ _ _ _ _ => (true, "looks right")

/-- A small coding question used by concrete grading examples. -/
def exampleCodingQuestion : CodingQuestion :=
  { question := "Print hello", expected_output := "hello",
    validation_criteria := ["prints hello"], sample_solution := "print('hello')" }

/-- Witness for C4: a crashing submission is marked failed with the
execution status and error in the feedback. -/
theorem C4_exec_failure_skips_validator_witness :
    (failingExec "print(1/0)").1 = false ∧
    grade_coding_question failingExec acceptAllValidator "print(1/0)"
        exampleCodingQuestion =
      (false,
        "Code execution failed: Runtime Error (NZEC). Error: Traceback (most recent call last)") := by
  have h := C4_exec_failure_skips_validator failingExec acceptAllValidator
    "print(1/0)" exampleCodingQuestion rfl
  refine ⟨rfl, ?_⟩
  rw [h.1]
  decide

/-- The polling loop reads only the polls at indexes `i` to
`i + fuel - 1`. -/
theorem pollForResult_congr (polls polls' : Nat → PollResponse) (i fuel : Nat)
    (h : ∀ j, i ≤ j → j < i + fuel → polls j = polls' j) :
    pollForResult polls i fuel = pollForResult polls' i fuel := by
  induction fuel generalizing i with
  | zero => rfl
  | succ n ih =>
    rw [pollForResult, pollForResult]
    have hi : polls' i = polls i := (h i le_rfl (by omega)).symm
    rw [hi]
    cases hp : polls i with
    | reqError e => rfl
    | response status_id status_description stdout stderr compile_output =>
      by_cases hgt : status_id > 2
      · simp [hgt]
      · simp only [hgt, if_false]
        exact ih (i + 1) (fun j hj1 hj2 => h j (by omega) (by omega))

/-- If every remaining poll reports the job still running, the loop
exhausts its fuel and reports a timeout. -/
theorem pollForResult_timeout (polls : Nat → PollResponse) (i fuel : Nat)
    (h : ∀ j, i ≤ j → j < i + fuel → pollStillRunning (polls j) = true) :
    pollForResult polls i fuel = (false, "Execution timed out.", "") := by
  induction fuel generalizing i with
  | zero => rfl
  | succ n ih =>
    rw [pollForResult]
    cases hp : polls i with
    | reqError e =>
      have hrun := h i le_rfl (by omega)
      rw [hp] at hrun
      simp [pollStillRunning] at hrun
    | response status_id status_description stdout stderr compile_output =>
      have hrun := h i le_rfl (by omega)
      rw [hp] at hrun
      simp only [pollStillRunning, decide_eq_true_eq] at hrun
      have hgt : ¬ status_id > 2 := by omega
      simp only [hgt, if_false]
      exact ih (i + 1) (fun j hj1 hj2 => h j (by omega) (by omega))

/-- C9: code execution consults at most the first 10 poll responses (the
outcome is unchanged by anything past them), and when every one of those
10 polls reports the job still incomplete the operation returns the
timed-out failure result. -/
theorem C9_poll_bounded_then_timeout :
    (∀ (submit : SubmitResponse) (polls polls' : Nat → PollResponse),
      (∀ i, i < 10 → polls i = polls' i) →
      execute_code_and_get_output submit polls =
        execute_code_and_get_output submit polls') ∧
    (∀ (token : String) (polls : Nat → PollResponse),
      (∀ i, i < 10 → pollStillRunning (polls i) = true) →
      execute_code_and_get_output (SubmitResponse.ok (some token)) polls =
        (false, "Execution timed out.", "")) := by
  constructor
  · intro submit polls polls' h
    cases submit with
    | reqError e => rfl
    | ok token =>
      cases token with
      | none => rfl
      | some t =>
        exact pollForResult_congr polls polls' 0 10 (fun j hj1 hj2 => h j (by omega))
  · intro token polls h
    exact pollForResult_timeout polls 0 10 (fun j hj1 hj2 => h j (by omega))

/-- A poll stream on which the job never finishes. -/
def runningPolls : Nat → PollResponse :=
  fun _ => PollResponse.response 2 "Processing" "" none none

/-- Witness for C9: with every poll reporting "Processing", the result is
the timed-out failure. -/
theorem C9_poll_bounded_then_timeout_witness :
    (∀ i, i < 10 → pollStillRunning (runningPolls i) = true) ∧
    execute_code_and_get_output (SubmitResponse.ok (some "tok")) runningPolls =
      (false, "Execution timed out.", "") := by
  refine ⟨fun i _ => rfl, ?_⟩
  exact C9_poll_bounded_then_timeout.2 "tok" runningPolls (fun i _ => rfl)

/-- Quiz retrieval for grading reads only the stored quizzes, never the
storage keys. -/
theorem find_stored_quiz_eq (active_quizzes : List (String × MixedQuiz))
    (topic_id quiz_type : String) :
    find_stored_quiz active_quizzes topic_id quiz_type =
      (active_quizzes.map Prod.snd).find?
        (fun z => z.topic_id == topic_id && z.quiz_type == quiz_type) := by
  rw [List.find?_map]
  simp only [Function.comp_def]
  cases h : active_quizzes.find?
      (fun p => p.2.topic_id == topic_id && p.2.quiz_type == quiz_type) with
  | none => simp [find_stored_quiz, h]
  | some p => simp [find_stored_quiz, h]

/-- C10: quizzes are stored under a key `user:topic:type`, yet grading
retrieves by matching only the quiz's own topic id and quiz type; hence
grading is unchanged when only the storage keys (including the user id
component) differ, and in particular a quiz stored for one user grades
any matching submission exactly as it would stored for any other user. -/
theorem C10_grading_ignores_storing_user :
    (∀ (quiz : MixedQuiz) (user_id : String),
      store_quiz_for_grading [] quiz user_id =
        [(user_id ++ ":" ++ quiz.topic_id ++ ":" ++ quiz.quiz_type, quiz)]) ∧
    (∀ (a b : List (String × MixedQuiz))
        (execute_code : String → Bool × String × String)
        (validate_coding_solution :
          String → String → String → String → List String → Bool × String)
        (submission : MixedQuizSubmission),
      a.map Prod.snd = b.map Prod.snd →
      grade_mixed_quiz a execute_code validate_coding_solution submission =
        grade_mixed_quiz b execute_code validate_coding_solution submission) ∧
    (∀ (quiz : MixedQuiz) (uidX uidY : String)
        (execute_code : String → Bool × String × String)
        (validate_coding_solution :
          String → String → String → String → List String → Bool × String)
        (submission : MixedQuizSubmission),
      grade_mixed_quiz (store_quiz_for_grading [] quiz uidX)
          execute_code validate_coding_solution submission =
        grade_mixed_quiz (store_quiz_for_grading [] quiz uidY)
          execute_code validate_coding_solution submission) := by
  have hmap : ∀ (a b : List (String × MixedQuiz))
      (execute_code : String → Bool × String × String)
      (validate_coding_solution :
        String → String → String → String → List String → Bool × String)
      (submission : MixedQuizSubmission),
      a.map Prod.snd = b.map Prod.snd →
      grade_mixed_quiz a execute_code validate_coding_solution submission =
        grade_mixed_quiz b execute_code validate_coding_solution submission := by
    intro a b execute_code validate_coding_solution submission h
    rw [grade_mixed_quiz, grade_mixed_quiz, find_stored_quiz_eq,
      find_stored_quiz_eq, h]
  refine ⟨fun quiz user_id => rfl, hmap, ?_⟩
  intro quiz uidX uidY execute_code validate_coding_solution submission
  exact hmap _ _ execute_code validate_coding_solution submission rfl

/-- A stored quiz used by the C10 witness. -/
def demoQuiz : MixedQuiz :=
  { topic_id := "t1", topic_title := "Lists", mcq_questions := exampleMcqs,
    coding_question := exampleCodingQuestion, quiz_type := "post_lesson" }

/-- A submission matching `demoQuiz` by topic and type. -/
def demoSubmission : MixedQuizSubmission :=
  { topic_id := "t1", mcq_answers := [0, 1, 2], coding_answer := "print('hello')",
    quiz_type := "post_lesson" }

/-- Witness for C10: the same quiz stored for alice or for bob grades the
same submission identically. -/
theorem C10_grading_ignores_storing_user_witness :
    [(("alice:t1:post_lesson" : String), demoQuiz)].map Prod.snd =
      [(("bob:t1:post_lesson" : String), demoQuiz)].map Prod.snd ∧
    grade_mixed_quiz [("alice:t1:post_lesson", demoQuiz)]
        failingExec acceptAllValidator demoSubmission =
      grade_mixed_quiz [("bob:t1:post_lesson", demoQuiz)]
        failingExec acceptAllValidator demoSubmission := by
  refine ⟨rfl, ?_⟩
  exact C10_grading_ignores_storing_user.2.1 _ _ failingExec acceptAllValidator
    demoSubmission rfl

/-! ### Onboarding (`main.py` `/onboard`)

The Firestore `users` collection is embedded as an ordered association
list from user id to profile; `onboard_user` rejects a duplicate id,
forces `onboarding_complete` to `false`, and otherwise stores the
submitted profile verbatim. -/

/-- The `users` collection. -/
abbrev UserStore := List (String × UserProfile)

/-- `main.onboard_user`: HTTP 409 on a duplicate user id; otherwise the
submitted profile, with `onboarding_complete` forced to `false`, is
written to the store and echoed back. -/
def onboard_user (db_users : UserStore) (profile : UserProfile) :
    Except String (UserStore × UserProfile) :=
  if db_users.any (fun p => p.1 == profile.userId) then
    Except.error "User with this ID already exists."
  else
    let stored := { profile with onboarding_complete := false }
    Except.ok (db_users ++ [(stored.userId, stored)], stored)

/-- An onboarding request whose body already carries verified and
struggling topics. -/
def prefilledProfile : UserProfile :=
  { userId := "u9", userName := "Mallory", goal := "Python",
    learningProfile := { tags := [] },
    knowledgeState :=
      { claimed_mastery := ["t0"], verified_mastery := ["t1"],
        struggling_with := ["t2"] },
    onboarding_complete := true }

/-- The profile `onboard_user` stores for `prefilledProfile`. -/
def prefilledStored : UserProfile :=
  { prefilledProfile with onboarding_complete := false }

/-- C8 counterexample: onboarding a request whose body carries a
non-empty `verified_mastery` succeeds and stores that non-empty list, so
the stored state's verified and struggling lists are not always empty. -/
theorem C8_onboard_nonempty_verified_counterexample :
    onboard_user [] prefilledProfile =
      Except.ok ([(("u9" : String), prefilledStored)], prefilledStored) ∧
    prefilledStored.knowledgeState.verified_mastery = ["t1"] ∧
    prefilledStored.knowledgeState.struggling_with = ["t2"] := by
  refine ⟨rfl, rfl, rfl⟩

/-- C8 (amended): a successful onboarding stores the submitted profile
under its user id with `onboarding_complete` forced to `false` and the
knowledge state taken verbatim from the request — so `claimed_mastery` is
populated from the user's input, and `verified_mastery` and
`struggling_with` are empty exactly when the request left them empty (as
the model's defaults do). -/
theorem C8_onboard_user_stores_input_state (db_users : UserStore)
    (profile : UserProfile) (store' : UserStore) (stored : UserProfile)
    (h : onboard_user db_users profile = Except.ok (store', stored)) :
    stored.knowledgeState = profile.knowledgeState ∧
    stored.onboarding_complete = false ∧
    store' = db_users ++ [(profile.userId, stored)] := by
  rw [onboard_user] at h
  by_cases hdup : db_users.any (fun p => p.1 == profile.userId)
  · rw [if_pos hdup] at h
    cases h
  · rw [if_neg hdup] at h
    injection h with h
    injection h with h1 h2
    subst h1
    subst h2
    exact ⟨rfl, rfl, rfl⟩

/-- A fresh onboarding request with empty verified and struggling lists. -/
def freshProfile : UserProfile :=
  { userId := "u3", userName := "Alex", goal := "Python",
    learningProfile := { tags := ["use_analogy"] },
    knowledgeState :=
      { claimed_mastery := ["t0", "t1"], verified_mastery := [],
        struggling_with := [] },
    onboarding_complete := true }

/-- Witness for the amended C8: onboarding `freshProfile` into an empty
store keeps its claimed list and stores empty verified and struggling
lists. -/
theorem C8_onboard_user_stores_input_state_witness :
    onboard_user [] freshProfile =
      Except.ok ([(("u3" : String), { freshProfile with onboarding_complete := false })],
        { freshProfile with onboarding_complete := false }) ∧
    ({ freshProfile with onboarding_complete := false } : UserProfile).knowledgeState =
      freshProfile.knowledgeState ∧
    ({ freshProfile with onboarding_complete := false } : UserProfile).onboarding_complete = false := by
  refine ⟨rfl, ?_, ?_⟩
  · exact (C8_onboard_user_stores_input_state [] freshProfile _ _ rfl).1
  · exact (C8_onboard_user_stores_input_state [] freshProfile _ _ rfl).2.1
